import Mathlib

/-!
Shallow embedding of the synthesia backend (src/backend.py, src/services.py).

The repository is glue code around two external AI providers.  The embedding
models each service function as a pure Lean function, with the ambient global
state (client initialization, API-token presence) and the external providers
passed in as explicit parameters.  An HTTP error (`fastapi.HTTPException`) is
modelled as a status code plus a detail string; raising is modelled with
`Except`.  Each service function additionally returns a record of the outbound
provider call it made (`none` = no external call was attempted), mirroring the
call counter the spec suggests for testing.  All strings raised by the code
are carried verbatim.
-/

/-- Model of `fastapi.HTTPException`: an HTTP status code and a detail string. -/
structure HErr where
  status_code : Nat
  detail : String
deriving DecidableEq, Repr

/-- Python renders an `HTTPException` via `str(e)` as `"<status>: <detail>"`
(starlette's `HTTPException.__str__`).  Both service functions interpolate
caught exceptions into f-strings this way. -/
def hexcStr (e : HErr) : String :=
  toString e.status_code ++ ": " ++ e.detail

/-- services.py line 29: `encode_image_to_base64` encodes 3 input bytes into
4 alphabet characters (standard base64 with `=` padding, as Python's
`base64.b64encode`). -/
def base64Alphabet : List Char :=
  "ABCDEFGHIJKLMNOPQRSTUVWXYZabcdefghijklmnopqrstuvwxyz0123456789+/".toList

def b64CharAt (i : Nat) : Char := base64Alphabet.getD i 'A'

def b64EncodeChunk : List Nat → List Char
  | [a, b, c] => [b64CharAt (a / 4), b64CharAt (a % 4 * 16 + b / 16),
                  b64CharAt (b % 16 * 4 + c / 64), b64CharAt (c % 64)]
  | [a, b] => [b64CharAt (a / 4), b64CharAt (a % 4 * 16 + b / 16),
               b64CharAt (b % 16 * 4), '=']
  | [a] => [b64CharAt (a / 4), b64CharAt (a % 4 * 16), '=', '=']
  | _ => []

def b64Encode : List Nat → List Char
  | [] => []
  | [a] => b64EncodeChunk [a]
  | [a, b] => b64EncodeChunk [a, b]
  | a :: b :: c :: rest => b64EncodeChunk [a, b, c] ++ b64Encode rest

/-- services.py lines 29-31. Image bytes are modelled as `List Nat`. -/
def encode_image_to_base64 (image_bytes : List Nat) : String :=
  String.mk (b64Encode image_bytes)

/-- An `UploadFile` as the services see it: a declared content type
(`none` models Python `None`) and the file bytes. -/
structure ImageUpload where
  content_type : Option String
  bytes : List Nat
deriving DecidableEq, Repr

/-- Python's `str.startswith`: `s` starts with the given prefix.  (Lean's
`String.startsWith` is implemented with byte-position primitives that do not
reduce inside the kernel, so the embedding uses the equivalent
character-list form.) -/
def py_startswith (s p : String) : Bool :=
  p.toList.isPrefixOf s.toList

/-- services.py line 39: `not image.content_type or not
image.content_type.startswith("image/")` — the upload is rejected when the
content type is `None`, empty (Python falsy), or does not start with
`"image/"`.  This function is the *negation* of that condition (true = the
upload passes the check). -/
def content_type_ok : Option String → Bool
  | none => false
  | some s => !s.isEmpty && py_startswith s "image/"

/-- Result of one call to the vision provider
(`openai_client.chat.completions.create`): either it returns and
`response.choices[0].message.content` is the given `Option String`
(`none` models Python `None`), or it raises an exception whose string
rendering is `msg`. -/
inductive VisionCallResult where
  | ok (content : Option String)
  | raises (msg : String)
deriving DecidableEq, Repr

/-- services.py lines 35-83, `get_musical_description_from_openai`.

Parameters model the ambient state and the external provider:
`clientInitialized` is whether the module-level `openai_client` is non-None;
`provider` maps the image data-URI payload sent to OpenAI to the call's result.

Returns the raised-or-returned result paired with the outbound request payload
(`none` = the provider was never called).

Note the control flow of the source: the client check (line 37) and the
content-type check (line 39) happen before the `try`; the empty-description
`HTTPException` raised on line 77 is raised *inside* the `try`, so it is
caught by the function's own `except Exception` (line 80) — `HTTPException`
is an `Exception` — and re-raised wrapped in the generic message of line 83. -/
def get_musical_description_from_openai
    (clientInitialized : Bool)
    (image : ImageUpload)
    (provider : String → VisionCallResult) :
    Except HErr String × Option String :=
  if !clientInitialized then
    (.error ⟨500, "OpenAI client not initialized. Check API key."⟩, none)
  else if !content_type_ok image.content_type then
    (.error ⟨400, "Invalid file type. Please upload an image."⟩, none)
  else
    let base64_image := encode_image_to_base64 image.bytes
    let uri := "data:" ++ image.content_type.getD "" ++ ";base64," ++ base64_image
    match provider uri with
    | .raises m =>
        (.error ⟨500, "Failed to get musical description from OpenAI: " ++ m⟩,
         some uri)
    | .ok content =>
        match content with
        | none =>
            -- `if not description:` — None is falsy; the line-77 exception is
            -- caught by line 80 and wrapped by line 83.
            (.error ⟨500, "Failed to get musical description from OpenAI: "
               ++ hexcStr ⟨500, "OpenAI returned an empty description."⟩⟩,
             some uri)
        | some d =>
            if d.isEmpty then
              (.error ⟨500, "Failed to get musical description from OpenAI: "
                 ++ hexcStr ⟨500, "OpenAI returned an empty description."⟩⟩,
               some uri)
            else
              (.ok d, some uri)

/-- The value `replicate.run` resolves to, covering the shapes the spec
enumerates and the unrecognized examples its tests use: a bare string, a dict
(modelled as a string-keyed association list with string values, so Python
truthiness of a value is non-emptiness), an integer, and an object exposing a
`.url` attribute.  Only the first two are inspected by the source
(services.py lines 104-109); anything else falls through. -/
inductive ReplicateOutput where
  | strOut (s : String)
  | dictOut (entries : List (String × String))
  | intOut (n : Int)
  | objWithUrl (url : String)
deriving DecidableEq, Repr

/-- Result of one `replicate.run` call: it returns an output, raises a
`replicate.exceptions.ReplicateError`, or raises some other exception
(each exception modelled by its string rendering). -/
inductive ReplicateRunResult where
  | ok (output : ReplicateOutput)
  | replicateError (msg : String)
  | otherError (msg : String)
deriving DecidableEq, Repr

/-- services.py line 92: the fixed model identifier passed to `replicate.run`. -/
def model_identifier : String :=
  "riffusion/riffusion:8cf61ea6c56afd61d8f5b9ffd14d7c216c0a93844ce2d82ac1c9ecc9c7f24e05"

/-- services.py line 94: the entire input payload passed to `replicate.run`
is the single binding of `"prompt_a"` to the caller's prompt. -/
def input_data (prompt : String) : List (String × String) :=
  [("prompt_a", prompt)]

/-- services.py lines 104-109, the output-shape normalization:
`audio_url` is set from a dict with a truthy `"audio"` value, or from a
string starting with `"http"`; otherwise it stays `None` and line 113 raises. -/
def audio_url_of : ReplicateOutput → Option String
  | .dictOut entries =>
      match entries.lookup "audio" with
      | some v => if v = "" then none else some v
      | none => none
  | .strOut s => if py_startswith s "http" then some s else none
  | .intOut _ => none
  | .objWithUrl _ => none

/-- services.py lines 86-122, `generate_audio_from_replicate`.

`tokenConfigured` is whether the module-level `REPLICATE_API_TOKEN` is set;
`run` is `replicate.run`, keyed by the model identifier and input payload it
receives.  Returns the raised-or-returned result paired with the outbound
call's arguments (`none` = `replicate.run` was never called).

Control flow of the source: the token check (line 88) precedes the `try`;
the unexpected-output `HTTPException` raised on line 113 is raised *inside*
the `try`, and it is not a `ReplicateError`, so it is caught by the
function's own `except Exception` (line 120) and re-raised wrapped in the
generic message of line 122. -/
def generate_audio_from_replicate (tokenConfigured : Bool)
    (run : String → List (String × String) → ReplicateRunResult)
    (prompt : String) :
    Except HErr String × Option (String × List (String × String)) :=
  if !tokenConfigured then
    (.error ⟨500, "Replicate API token not configured."⟩, none)
  else
    let call := (model_identifier, input_data prompt)
    match run model_identifier (input_data prompt) with
    | .replicateError m =>
        (.error ⟨502, "Audio generation service error: " ++ m⟩, some call)
    | .otherError m =>
        (.error ⟨500, "Failed to generate audio via Replicate: " ++ m⟩, some call)
    | .ok output =>
        match audio_url_of output with
        | some url => (.ok url, some call)
        | none =>
            -- line 113's HTTPException, caught by line 120 and wrapped by
            -- line 122.
            (.error ⟨500, "Failed to generate audio via Replicate: "
               ++ hexcStr ⟨500,
                    "Unexpected output format from audio generation model."⟩⟩,
             some call)

/-- The transport behaviour of one `requests.get(..., stream=True)` session:
the chunks `iter_content` produces before the session ends, and whether the
session ends in a transport failure (a failed connect or `raise_for_status`
is `fails = true` with `chunks = []`).  A chunk is a byte string, modelled
as `List Nat`. -/
structure StreamSource where
  chunks : List (List Nat)
  fails : Bool
deriving DecidableEq, Repr

/-- services.py lines 124-144, `stream_audio_from_url`: yields each received
chunk, skipping falsy (empty) keep-alive chunks (line 132); every exception
is caught (lines 134-144) and handled by yielding `b""` once, so the
generator is total — it never propagates an exception to its consumer,
which is why the embedding returns a plain list rather than `Except`. -/
def stream_audio_from_url (src : StreamSource) : List (List Nat) :=
  let delivered := src.chunks.filter (fun c => !c.isEmpty)
  if src.fails then delivered ++ [[]] else delivered

/-- A required FastAPI form/file field as received by request validation:
either absent from the request, or present with a value. -/
inductive FormField (α : Type) where
  | missing
  | given (value : α)
deriving DecidableEq, Repr

/-- Success body of POST /generate-audio (backend.py line 86):
`\x7b"audio_url": url\x7d`. -/
structure AudioResponse where
  audio_url : String
deriving DecidableEq, Repr

/-- Success body of POST /describe-image-musically (backend.py line 67):
`\x7b"description": text\x7d`. -/
structure DescribeResponse where
  description : String
deriving DecidableEq, Repr

/-- backend.py lines 76-94, `generate_audio_endpoint`.

FastAPI semantics of `prompt: str = Form(...)`: a request whose form data
lacks the field fails validation with a 422 response before the handler body
runs (modelled as status 422, detail "Field required"); a present field binds
its string value — the empty string included, since a bare `str` form field
carries no minimum-length constraint.  Inside the handler, `HTTPException`s
from the service are re-raised unchanged (line 88-90); the service only
raises `HTTPException`s, so the `except Exception` arm of line 91 is
unreachable for it. -/
def generate_audio_endpoint (tokenConfigured : Bool)
    (run : String → List (String × String) → ReplicateRunResult)
    (promptField : FormField String) :
    Except HErr AudioResponse × Option (String × List (String × String)) :=
  match promptField with
  | .missing => (.error ⟨422, "Field required"⟩, none)
  | .given prompt =>
      match generate_audio_from_replicate tokenConfigured run prompt with
      | (.ok url, call) => (.ok ⟨url⟩, call)
      | (.error e, call) => (.error e, call)

/-- backend.py lines 57-74, `describe_image_musically_endpoint`, with the
same FastAPI semantics for the required `image: UploadFile = File(...)`. -/
def describe_image_musically_endpoint (clientInitialized : Bool)
    (provider : String → VisionCallResult)
    (imageField : FormField ImageUpload) :
    Except HErr DescribeResponse × Option String :=
  match imageField with
  | .missing => (.error ⟨422, "Field required"⟩, none)
  | .given image =>
      match get_musical_description_from_openai clientInitialized image provider with
      | (.ok d, call) => (.ok ⟨d⟩, call)
      | (.error e, call) => (.error e, call)

/-! ## Helper lemmas shared by several claim theorems -/

/-- Whenever the Replicate token is configured, the adapter makes exactly the
call `(model_identifier, input_data prompt)`, whatever the provider then does. -/
theorem gen_audio_call_when_token
    (run : String → List (String × String) → ReplicateRunResult) (prompt : String) :
    (generate_audio_from_replicate true run prompt).2 =
      some (model_identifier, input_data prompt) := by
  unfold generate_audio_from_replicate
  cases hr : run model_identifier (input_data prompt) with
  | ok output => cases ha : audio_url_of output <;> simp [hr, ha]
  | replicateError m => simp [hr]
  | otherError m => simp [hr]

/-- The endpoint adds no outbound calls of its own: for a present prompt
field, its call record is the adapter's. -/
theorem gen_audio_endpoint_call (tok : Bool)
    (run : String → List (String × String) → ReplicateRunResult) (prompt : String) :
    (generate_audio_endpoint tok run (.given prompt)).2 =
      (generate_audio_from_replicate tok run prompt).2 := by
  unfold generate_audio_endpoint
  rcases hg : generate_audio_from_replicate tok run prompt with ⟨r, c⟩
  cases r <;> simp [hg]

/-! ## Claim theorems -/

/-- Claim C1, counterexample: the source (services.py lines 104-109) only
recognizes dict-with-audio and http-string shapes.  A provider output that is
an object exposing a `.url` attribute is NOT normalized to its URL: the
adapter errors on it, while the bare-string shape of the same URL succeeds,
so the three shapes do not all yield the same URL string. -/
theorem C1_counterexample :
    (generate_audio_from_replicate true
        (fun _ _ => .ok (.objWithUrl "http://cdn.example.com/out.wav")) "p").1 =
      .error ⟨500, "Failed to generate audio via Replicate: 500: Unexpected output format from audio generation model."⟩ ∧
    (generate_audio_from_replicate true
        (fun _ _ => .ok (.strOut "http://cdn.example.com/out.wav")) "p").1 =
      .ok "http://cdn.example.com/out.wav" := by
  constructor <;> rfl

/-- Claim C1, amended: for the two shapes the code does recognize — a bare
URL string starting with "http", and a dict whose "audio" key holds that
(non-empty) URL — `generate_audio_from_replicate` returns the identical URL
string. -/
theorem C1_two_shapes_normalize (prompt url : String)
    (h : py_startswith url "http" = true) :
    (generate_audio_from_replicate true
        (fun _ _ => .ok (.strOut url)) prompt).1 = .ok url ∧
    (generate_audio_from_replicate true
        (fun _ _ => .ok (.dictOut [("audio", url)])) prompt).1 = .ok url := by
  have hne : url ≠ "" := by
    intro he
    rw [he] at h
    exact absurd h (by decide)
  constructor
  · simp [generate_audio_from_replicate, audio_url_of, h]
  · simp [generate_audio_from_replicate, audio_url_of, List.lookup, hne]

/-- Witness for `C1_two_shapes_normalize` at a concrete URL and prompt. -/
theorem C1_two_shapes_normalize_witness :
    (py_startswith "http://cdn.example.com/out.wav" "http" = true) ∧
    ((generate_audio_from_replicate true
        (fun _ _ => .ok (.strOut "http://cdn.example.com/out.wav")) "q").1 =
      .ok "http://cdn.example.com/out.wav" ∧
    (generate_audio_from_replicate true
        (fun _ _ => .ok (.dictOut [("audio", "http://cdn.example.com/out.wav")])) "q").1 =
      .ok "http://cdn.example.com/out.wav") :=
  ⟨by decide, C1_two_shapes_normalize "q" "http://cdn.example.com/out.wav" (by decide)⟩

/-- Claim C2, counterexample: an empty-string prompt is NOT rejected by the
endpoint — `prompt: str = Form(...)` accepts a present-but-empty field, the
handler runs, and (token configured) a provider call is attempted with the
empty prompt; here the request even succeeds. -/
theorem C2_counterexample :
    generate_audio_endpoint true
        (fun _ _ => .ok (.strOut "http://cdn.example.com/out.wav")) (.given "") =
      (.ok ⟨"http://cdn.example.com/out.wav"⟩,
       some (model_identifier, [("prompt_a", "")])) := by
  rfl

/-- Claim C2, amended: a missing prompt form field is rejected with a 422
validation failure and no provider call is attempted; an empty-string prompt
is not rejected — the handler runs and, with the token configured, a provider
call is attempted (with the empty prompt), whatever the provider returns. -/
theorem C2_prompt_validation_amended (tokenConfigured : Bool)
    (run : String → List (String × String) → ReplicateRunResult) :
    generate_audio_endpoint tokenConfigured run .missing =
      (.error ⟨422, "Field required"⟩, none) ∧
    (generate_audio_endpoint true run (.given "")).2 =
      some (model_identifier, input_data "") := by
  refine ⟨rfl, ?_⟩
  rw [gen_audio_endpoint_call]
  exact gen_audio_call_when_token run ""

/-- Claim C5: on an unrecognized provider output (an integer; a dict without
"audio"), the code raises the specific unexpected-output `HTTPException`
(services.py line 113) inside its own `try`, where `except Exception`
(line 120) catches it and re-raises the generic wrapper of line 122 — so the
surfaced error is the generic internal-error message embedding the specific
one, not the distinct unexpected-output error alone. -/
theorem C5_unexpected_output_wrapped :
    (generate_audio_from_replicate true (fun _ _ => .ok (.intOut 7)) "p").1 =
      .error ⟨500, "Failed to generate audio via Replicate: 500: Unexpected output format from audio generation model."⟩ ∧
    (generate_audio_from_replicate true
        (fun _ _ => .ok (.dictOut [("video", "x")])) "p").1 =
      .error ⟨500, "Failed to generate audio via Replicate: 500: Unexpected output format from audio generation model."⟩ := by
  constructor <;> rfl

/-- Claim C6, counterexample: the input payload the adapter sends for a
concrete prompt is exactly the single `prompt_a` binding — it contains none
of the parameters the claim lists (top_k, top_p, duration, temperature,
output_format). -/
theorem C6_counterexample :
    (generate_audio_from_replicate true
        (fun _ _ => .ok (.strOut "http://cdn.example.com/out.wav"))
        "uplifting synth melody").2 =
      some (model_identifier, [("prompt_a", "uplifting synth melody")]) ∧
    (input_data "uplifting synth melody").lookup "top_k" = none ∧
    (input_data "uplifting synth melody").lookup "top_p" = none ∧
    (input_data "uplifting synth melody").lookup "duration" = none ∧
    (input_data "uplifting synth melody").lookup "temperature" = none ∧
    (input_data "uplifting synth melody").lookup "output_format" = none := by
  refine ⟨rfl, ?_, ?_, ?_, ?_, ?_⟩ <;> rfl

/-- Claim C6, amended: every call of the adapter with the token configured
invokes the provider with the fixed model identifier and the input
`[("prompt_a", prompt)]`; nothing but the prompt is caller-influenced, and
without the token no call is made. -/
theorem C6_fixed_input_amended
    (run : String → List (String × String) → ReplicateRunResult) (prompt : String) :
    (generate_audio_from_replicate true run prompt).2 =
      some (model_identifier, [("prompt_a", prompt)]) ∧
    (generate_audio_from_replicate false run prompt).2 = none :=
  ⟨gen_audio_call_when_token run prompt, rfl⟩

/-- Claim C3: with the OpenAI client initialized, every upload whose content
type is absent or does not start with "image/" is rejected with the 400
invalid-file-type error, and no outbound provider call is attempted (the
call record is `none`).  The uninitialized-client case is claim C8. -/
theorem C3_invalid_content_type_rejected (image : ImageUpload)
    (provider : String → VisionCallResult)
    (h : content_type_ok image.content_type = false) :
    get_musical_description_from_openai true image provider =
      (.error ⟨400, "Invalid file type. Please upload an image."⟩, none) := by
  unfold get_musical_description_from_openai
  rw [h]
  rfl

/-- Witness for `C3_invalid_content_type_rejected` at a text/plain upload. -/
theorem C3_invalid_content_type_rejected_witness :
    content_type_ok (ImageUpload.mk (some "text/plain") [1, 2]).content_type = false ∧
    get_musical_description_from_openai true ⟨some "text/plain", [1, 2]⟩
        (fun _ => .ok (some "warm ambient pads")) =
      (.error ⟨400, "Invalid file type. Please upload an image."⟩, none) :=
  ⟨by decide,
   C3_invalid_content_type_rejected ⟨some "text/plain", [1, 2]⟩
     (fun _ => .ok (some "warm ambient pads")) (by decide)⟩

/-- Claim C4: when the vision provider returns empty content (empty string or
Python `None`), the code raises the specific empty-description
`HTTPException` (services.py line 77) inside its own `try`, where
`except Exception` (line 80) catches it and re-raises the generic wrapper of
line 83 — the result is a 500 whose message is the generic wrapper embedding
the empty-description message, and never a successful empty description. -/
theorem C4_empty_description_wrapped :
    (get_musical_description_from_openai true ⟨some "image/png", [137, 80, 78, 71]⟩
        (fun _ => .ok (some ""))).1 =
      .error ⟨500, "Failed to get musical description from OpenAI: 500: OpenAI returned an empty description."⟩ ∧
    (get_musical_description_from_openai true ⟨some "image/png", [137, 80, 78, 71]⟩
        (fun _ => .ok none)).1 =
      .error ⟨500, "Failed to get musical description from OpenAI: 500: OpenAI returned an empty description."⟩ := by
  constructor <;> rfl

/-- Claim C7: whenever the transport fails (before or mid-stream), the chunk
sequence `stream_audio_from_url` produces contains exactly one empty chunk,
and it is the final element; the generator catches every exception, so
nothing is raised to the consumer (the embedding is a total function into
plain lists). -/
theorem C7_failure_sentinel (src : StreamSource) (h : src.fails = true) :
    (stream_audio_from_url src).count [] = 1 ∧
    (stream_audio_from_url src).getLast? = some ([] : List Nat) := by
  unfold stream_audio_from_url
  rw [h]
  simp only [if_true]
  constructor
  · rw [List.count_append]
    have h0 : (src.chunks.filter (fun c => !c.isEmpty)).count ([] : List Nat) = 0 := by
      rw [List.count_eq_zero]
      intro hmem
      have hp := (List.mem_filter.mp hmem).2
      simp at hp
    rw [h0]
    rfl
  · exact List.getLast?_concat _

/-- Witness for `C7_failure_sentinel` on a concrete failing stream. -/
theorem C7_failure_sentinel_witness :
    (StreamSource.mk [[1, 2], [], [3]] true).fails = true ∧
    ((stream_audio_from_url ⟨[[1, 2], [], [3]], true⟩).count [] = 1 ∧
     (stream_audio_from_url ⟨[[1, 2], [], [3]], true⟩).getLast? = some ([] : List Nat)) :=
  ⟨rfl, C7_failure_sentinel ⟨[[1, 2], [], [3]], true⟩ rfl⟩

/-- Claim C8: with the module-level `openai_client` uninitialized (`None`),
every upload — whatever its content type, the non-image ones included —
fails with the 500 client-not-initialized error and no provider call; the
client check of services.py line 37 precedes the content-type check of
line 39. -/
theorem C8_client_check_first (image : ImageUpload)
    (provider : String → VisionCallResult) :
    get_musical_description_from_openai false image provider =
      (.error ⟨500, "OpenAI client not initialized. Check API key."⟩, none) := rfl

/-- Claim C9: recognition is strictly narrower than "any string or any dict
with an audio key": a string not starting with "http" is not normalized, and
a dict whose "audio" value is the empty string (Python falsy) is not
normalized; in both cases the adapter errors instead of returning the value. -/
theorem C9_recognition_strict (prompt s : String)
    (h : py_startswith s "http" = false) :
    audio_url_of (.strOut s) = none ∧
    audio_url_of (.dictOut [("audio", "")]) = none ∧
    (generate_audio_from_replicate true (fun _ _ => .ok (.strOut s)) prompt).1 =
      .error ⟨500, "Failed to generate audio via Replicate: 500: Unexpected output format from audio generation model."⟩ ∧
    (generate_audio_from_replicate true
        (fun _ _ => .ok (.dictOut [("audio", "")])) prompt).1 =
      .error ⟨500, "Failed to generate audio via Replicate: 500: Unexpected output format from audio generation model."⟩ := by
  refine ⟨?_, rfl, ?_, rfl⟩
  · simp [audio_url_of, h]
  · simp [generate_audio_from_replicate, audio_url_of, h]
    rfl

/-- Witness for `C9_recognition_strict` at a non-http URL string. -/
theorem C9_recognition_strict_witness :
    (py_startswith "ftp://host/a.wav" "http" = false) ∧
    (audio_url_of (.strOut "ftp://host/a.wav") = none ∧
     audio_url_of (.dictOut [("audio", "")]) = none ∧
     (generate_audio_from_replicate true
         (fun _ _ => .ok (.strOut "ftp://host/a.wav")) "p").1 =
       .error ⟨500, "Failed to generate audio via Replicate: 500: Unexpected output format from audio generation model."⟩ ∧
     (generate_audio_from_replicate true
         (fun _ _ => .ok (.dictOut [("audio", "")])) "p").1 =
       .error ⟨500, "Failed to generate audio via Replicate: 500: Unexpected output format from audio generation model."⟩) :=
  ⟨by decide, C9_recognition_strict "p" "ftp://host/a.wav" (by decide)⟩

/-- Claim C10: an empty chunk appears in the produced sequence exactly when
the transport failed — the success path filters out falsy keep-alive chunks,
so the empty chunk is unambiguously the error sentinel. -/
theorem C10_empty_chunk_iff_failure (src : StreamSource) :
    ([] : List Nat) ∈ stream_audio_from_url src ↔ src.fails = true := by
  unfold stream_audio_from_url
  cases h : src.fails <;> simp [List.mem_filter]
